import Mathlib

/-!
Shallow embedding of `src/devices/bus/vme/vme.cpp` (MAME VME backplane bus
driver): the bus (`vme_device`), the slot (`vme_slot_device`) and the card
capability (`device_vme_card_interface`), together with the three
width-polymorphic `install_device` overloads that register address decoders
into the bus's resolved program address space.

Machine integers are modelled as `Nat` with explicit masking/`% 2 ^ w` where
the C++ performs a narrowing cast.  `fatalerror` terminates the process, so a
fatal path is modelled as `Except.error`: no successor state exists, hence the
shared address space is untouched by construction.
-/

namespace VME

/-- VME address modifiers (`vme_amod_t` in `vme.h`).  The driver only
distinguishes the three supported single-cycle modifiers; every other
enumerator falls into the `switch` default and is represented here by
`other` carrying its numeric code. -/
inductive vme_amod_t where
  | A16_SC
  | A24_SC
  | A32_SC
  | other (code : Nat)
deriving DecidableEq, Repr

/-- The three handler-width shapes of the `install_device` overloads:
`read8_delegate`/`write8_delegate`, 16-bit and 32-bit delegate pairs. -/
inductive handler_width where
  | D8
  | D16
  | D32
deriving DecidableEq, Repr

/-- The fatal configuration errors raised by `fatalerror` in `vme.cpp`, plus
the fatal start-up failure when a delegated CPU is missing (in the source this
is a null-pointer dereference of `m_maincpu`, which also terminates the
process). -/
inductive vme_error where
  | unsupported_amod (w : handler_width) (amod : vme_amod_t)
  | unsupported_width (w : handler_width) (width : Nat)
  | missing_cpu (cputag : String)
deriving DecidableEq, Repr

/-- One decoder registration made by `install_readwrite_handler`: an
inclusive address range bound to a read/write delegate pair (delegates are
opaque, identified by `Nat` ids) of a given width shape, with the
width-adjusted value mask. -/
structure handler_entry where
  start : Nat
  stop : Nat
  rhandler : Nat
  whandler : Nat
  hwidth : handler_width
  mask : Nat
deriving DecidableEq, Repr

/-- The shared program address space: its decoder table, in registration
order. -/
structure address_space where
  handlers : List handler_entry
deriving DecidableEq, Repr

/-- `address_space::install_readwrite_handler`: registers one decoder for the
inclusive range `[start, stop]` with the given delegate pair and mask. -/
def address_space.install_readwrite_handler (sp : address_space)
    (start stop rhandler whandler : Nat) (hw : handler_width) (mask : Nat) :
    address_space :=
  { handlers := sp.handlers ++ [⟨start, stop, rhandler, whandler, hw, mask⟩] }

/-- A host CPU device as seen by the bus when delegating: its program address
space and that space's data-bus width. -/
structure cpu_device where
  m_databus_width : Nat
  prg_space : address_space
deriving DecidableEq, Repr

/-- State of `vme_device` (the bus).  `m_prgwidth` and `m_prgspace` are
uninitialised until `device_start` resolves them; the constructor therefore
takes their junk values as parameters.  The intrusive `simple_list`
`m_device_list` is modelled as a `List` of card ids in insertion order. -/
structure vme_device where
  m_allocspaces : Bool
  m_cputag : String
  m_prgwidth : Nat
  m_prgspace : address_space
  m_device_list : List Nat
deriving DecidableEq, Repr

/-- The `vme_device` constructor: `m_allocspaces(true), m_cputag("maincpu")`,
with `m_device_list` default-constructed empty and `m_prgwidth`/`m_prgspace`
left uninitialised (arbitrary junk, passed in as parameters). -/
def vme_device.construct (junk_prgwidth : Nat) (junk_prgspace : address_space) :
    vme_device :=
  { m_allocspaces := true
    m_cputag := "maincpu"
    m_prgwidth := junk_prgwidth
    m_prgspace := junk_prgspace
    m_device_list := [] }

/-- `vme_device::static_use_owner_spaces`: clears `m_allocspaces` so the bus
delegates to the owner CPU's address space instead of allocating its own. -/
def vme_device.static_use_owner_spaces (dev : vme_device) : vme_device :=
  { dev with m_allocspaces := false }

/-- `vme_device::device_start`: if `m_allocspaces`, acquires the bus's own
program space (`m_a32_config`: 32-bit wide, initially empty) and records its
width; otherwise looks up the owner's subdevice named `m_cputag` and takes its
program space and data-bus width.  When the lookup returns `nullptr` the
source dereferences the null `m_maincpu` pointer, terminating the process:
modelled as `Except.error (.missing_cpu _)`. -/
def vme_device.device_start (dev : vme_device)
    (subdevice : String → Option cpu_device) : Except vme_error vme_device :=
  if dev.m_allocspaces then
    .ok { dev with m_prgspace := ⟨[]⟩, m_prgwidth := 32 }
  else
    match subdevice dev.m_cputag with
    | none => .error (.missing_cpu dev.m_cputag)
    | some cpu =>
        .ok { dev with
                m_prgspace := cpu.prg_space
                m_prgwidth := cpu.m_databus_width }

/-- `vme_device::add_vme_card`: `m_device_list.append(*card)` — appends the
card at the tail of the bus's intrusive list. -/
def vme_device.add_vme_card (dev : vme_device) (card : Nat) : vme_device :=
  { dev with m_device_list := dev.m_device_list ++ [card] }

/-- `vme_device::~vme_device`: `m_device_list.detach_all()` — unlinks every
card from the list without deleting any of them.  Returns the emptied bus
together with the detached (still-live) cards. -/
def vme_device.destruct (dev : vme_device) : vme_device × List Nat :=
  ({ dev with m_device_list := [] }, dev.m_device_list)

/-- D8 overload of `vme_device::install_device`: validates the address
modifier (default case: `fatalerror`), then switches on the resolved
`m_prgwidth`, registering the decoder with the mask narrowed as in the
source: `(uint16_t)(mask & 0x0000ffff)` for 16, `(uint32_t)(mask & 0x00ffffff)`
for 24, `mask` unmodified for 32, and `fatalerror` otherwise. -/
def vme_device.install_device_d8 (dev : vme_device) (amod : vme_amod_t)
    (start stop rhandler whandler mask : Nat) : Except vme_error vme_device :=
  if amod = .A16_SC ∨ amod = .A24_SC ∨ amod = .A32_SC then
    if dev.m_prgwidth = 16 then
      .ok { dev with m_prgspace :=
              (dev.m_prgspace.install_readwrite_handler start stop rhandler
                whandler .D8 ((mask &&& 0x0000ffff) % 2 ^ 16)) }
    else if dev.m_prgwidth = 24 then
      .ok { dev with m_prgspace :=
              (dev.m_prgspace.install_readwrite_handler start stop rhandler
                whandler .D8 ((mask &&& 0x00ffffff) % 2 ^ 32)) }
    else if dev.m_prgwidth = 32 then
      .ok { dev with m_prgspace :=
              (dev.m_prgspace.install_readwrite_handler start stop rhandler
                whandler .D8 mask) }
    else
      .error (.unsupported_width .D8 dev.m_prgwidth)
  else
    .error (.unsupported_amod .D8 amod)

/-- D16 overload of `vme_device::install_device`; identical validate → mask →
register algorithm, with 16-bit delegate pair. -/
def vme_device.install_device_d16 (dev : vme_device) (amod : vme_amod_t)
    (start stop rhandler whandler mask : Nat) : Except vme_error vme_device :=
  if amod = .A16_SC ∨ amod = .A24_SC ∨ amod = .A32_SC then
    if dev.m_prgwidth = 16 then
      .ok { dev with m_prgspace :=
              (dev.m_prgspace.install_readwrite_handler start stop rhandler
                whandler .D16 ((mask &&& 0x0000ffff) % 2 ^ 16)) }
    else if dev.m_prgwidth = 24 then
      .ok { dev with m_prgspace :=
              (dev.m_prgspace.install_readwrite_handler start stop rhandler
                whandler .D16 ((mask &&& 0x00ffffff) % 2 ^ 32)) }
    else if dev.m_prgwidth = 32 then
      .ok { dev with m_prgspace :=
              (dev.m_prgspace.install_readwrite_handler start stop rhandler
                whandler .D16 mask) }
    else
      .error (.unsupported_width .D16 dev.m_prgwidth)
  else
    .error (.unsupported_amod .D16 amod)

/-- D32 overload of `vme_device::install_device`; identical validate → mask →
register algorithm, with 32-bit delegate pair. -/
def vme_device.install_device_d32 (dev : vme_device) (amod : vme_amod_t)
    (start stop rhandler whandler mask : Nat) : Except vme_error vme_device :=
  if amod = .A16_SC ∨ amod = .A24_SC ∨ amod = .A32_SC then
    if dev.m_prgwidth = 16 then
      .ok { dev with m_prgspace :=
              (dev.m_prgspace.install_readwrite_handler start stop rhandler
                whandler .D32 ((mask &&& 0x0000ffff) % 2 ^ 16)) }
    else if dev.m_prgwidth = 24 then
      .ok { dev with m_prgspace :=
              (dev.m_prgspace.install_readwrite_handler start stop rhandler
                whandler .D32 ((mask &&& 0x00ffffff) % 2 ^ 32)) }
    else if dev.m_prgwidth = 32 then
      .ok { dev with m_prgspace :=
              (dev.m_prgspace.install_readwrite_handler start stop rhandler
                whandler .D32 mask) }
    else
      .error (.unsupported_width .D32 dev.m_prgwidth)
  else
    .error (.unsupported_amod .D32 amod)

/-- State of the card capability `device_vme_card_interface`.  `m_vme` is the
resolved bus back-reference (a pointer in C++, modelled as the tag of the
resolved bus, `none` = `nullptr`); `m_vme_tag`/`m_vme_slottag` are the
configured identifiers (`const char *`, nullable); `m_next` is the intrusive
list link. -/
structure device_vme_card_interface where
  m_vme : Option String
  m_vme_tag : Option String
  m_vme_slottag : Option String
  m_slot : Nat
  m_next : Option Nat
deriving DecidableEq, Repr

/-- The `device_vme_card_interface` constructor: all references null,
`m_slot(0)`. -/
def device_vme_card_interface.construct : device_vme_card_interface :=
  { m_vme := none
    m_vme_tag := none
    m_vme_slottag := none
    m_slot := 0
    m_next := none }

/-- `device_vme_card_interface::static_set_vme_tag`: records the bus and slot
identifiers into the card. -/
def device_vme_card_interface.static_set_vme_tag
    (card : device_vme_card_interface) (tag slottag : Option String) :
    device_vme_card_interface :=
  { card with m_vme_tag := tag, m_vme_slottag := slottag }

/-- A device found in the machine's device registry: either a VME bus (the
`dynamic_cast<vme_device *>` succeeds) or some other device (the cast yields
null). -/
inductive machine_device where
  | vme_bus (dev : vme_device)
  | non_vme
deriving DecidableEq, Repr

/-- `dynamic_cast<vme_device *>(device().machine().device(m_vme_tag))`:
looks the tag up in the machine's device registry and keeps the result only
when it is a VME bus, returning the resolved bus's tag (the C++ pointer). -/
def find_vme_bus (machine : List (String × machine_device))
    (tag : Option String) : Option String :=
  match tag with
  | none => none
  | some t =>
      match (machine.find? (fun p => p.1 == t)).map Prod.snd with
      | some (.vme_bus _) => some t
      | _ => none

/-- `device_vme_card_interface::set_vme_device`: unconditionally stores the
result of the registry lookup + `dynamic_cast` into `m_vme`; if the bus was
found, calls `m_vme->add_vme_card(this)` (the matching registry entry's card
list grows by this card); otherwise nothing further happens. -/
def device_vme_card_interface.set_vme_device (card : device_vme_card_interface)
    (card_id : Nat) (machine : List (String × machine_device)) :
    device_vme_card_interface × List (String × machine_device) :=
  match find_vme_bus machine card.m_vme_tag with
  | none => ({ card with m_vme := none }, machine)
  | some t =>
      ({ card with m_vme := some t },
        machine.map (fun p =>
          if p.1 == t then
            match p.2 with
            | .vme_bus dev => (p.1, .vme_bus (dev.add_vme_card card_id))
            | d => (p.1, d)
          else p))

/-- `device_vme_card_interface::read8` (base): `uint8_t result = 0x00;
return result;` — inert default, returns zero and touches nothing. -/
def device_vme_card_interface.read8 (card : device_vme_card_interface)
    (offset : Nat) : Nat × device_vme_card_interface :=
  let result : Nat := 0x00
  (result, card)

/-- `device_vme_card_interface::write8` (base): logs only — a no-op on all
state. -/
def device_vme_card_interface.write8 (card : device_vme_card_interface)
    (offset data : Nat) : device_vme_card_interface :=
  card

/-- State of `vme_slot_device`: the configured bus/slot identifiers and the
plugged card, if any (`get_card_device()`). -/
structure vme_slot_device where
  m_vme_tag : Option String
  m_vme_slottag : Option String
  m_card : Option device_vme_card_interface
deriving DecidableEq, Repr

/-- `vme_slot_device::static_set_vme_slot`: records the bus and slot tags. -/
def vme_slot_device.static_set_vme_slot (slot : vme_slot_device)
    (tag slottag : Option String) : vme_slot_device :=
  { slot with m_vme_tag := tag, m_vme_slottag := slottag }

/-- `vme_slot_device::device_start`: if a card is plugged, propagates the
slot's bus/slot identifiers into it via `static_set_vme_tag`. -/
def vme_slot_device.device_start (slot : vme_slot_device) : vme_slot_device :=
  match slot.m_card with
  | none => slot
  | some card =>
      { slot with
          m_card := some (card.static_set_vme_tag slot.m_vme_tag
            slot.m_vme_slottag) }

/-- `vme_slot_device::read8`: `uint16_t result = 0x00; return result;` — the
forwarding to the plugged card is commented out, so this returns the neutral
default truncated to the `uint8_t` return type, with no state change. -/
def vme_slot_device.read8 (slot : vme_slot_device) (offset : Nat) :
    Nat × vme_slot_device :=
  let result : Nat := 0x00
  (result % 2 ^ 8, slot)

/-- `vme_slot_device::write8`: the forwarding to the plugged card is commented
out — a no-op on all state. -/
def vme_slot_device.write8 (slot : vme_slot_device) (offset data : Nat) :
    vme_slot_device :=
  slot

/-! ## Concrete bus states used by the witnesses -/

/-- A started bus whose resolved program width is 16 bits. -/
def bus16 : vme_device := ⟨true, "maincpu", 16, ⟨[]⟩, []⟩

/-- A started bus whose resolved program width is 24 bits. -/
def bus24 : vme_device := ⟨true, "maincpu", 24, ⟨[]⟩, []⟩

/-- A started bus whose resolved program width is 32 bits. -/
def bus32 : vme_device := ⟨true, "maincpu", 32, ⟨[]⟩, []⟩

/-- A bus whose resolved program width is the unsupported value 8. -/
def bus8 : vme_device := ⟨true, "maincpu", 8, ⟨[]⟩, []⟩

/-- A card configured with bus tag "vme" but not yet attached. -/
def card0 : device_vme_card_interface :=
  ⟨none, some "vme", some "slot1", 0, none⟩

/-! ## Helper lemmas -/

/-- Narrowing a value already below `2 ^ n` by `&&& (2 ^ n - 1)` is the
identity. -/
lemma and_mask_of_lt {x n : Nat} (h : x < 2 ^ n) : x &&& (2 ^ n - 1) = x := by
  rw [Nat.and_pow_two_sub_one_eq_mod, Nat.mod_eq_of_lt h]

/-- Folding `add_vme_card` over a list of cards appends them, in order, to
the bus's card list. -/
lemma foldl_add_vme_card (dev : vme_device) (cards : List Nat) :
    (cards.foldl vme_device.add_vme_card dev).m_device_list =
      dev.m_device_list ++ cards := by
  induction cards generalizing dev with
  | nil => simp
  | cons c cs ih =>
      simp only [List.foldl_cons, ih]
      simp [vme_device.add_vme_card]

/-! ## Claims -/

/-- C1: for every supported address modifier (A16_SC, A24_SC, A32_SC), every
resolved bus width in {16, 24, 32} and every 32-bit input mask, each of the
three `install_device` overloads succeeds and registers the (start, stop)
range with the mask narrowed to `mask &&& (2 ^ width - 1)`: low 16 bits for
width 16, low 24 bits for width 24, unmodified for width 32. -/
theorem install_device_supported_masks (dev : vme_device) (amod : vme_amod_t)
    (start stop rhandler whandler mask : Nat)
    (hamod : amod = .A16_SC ∨ amod = .A24_SC ∨ amod = .A32_SC)
    (hwidth : dev.m_prgwidth = 16 ∨ dev.m_prgwidth = 24 ∨ dev.m_prgwidth = 32)
    (hmask : mask < 2 ^ 32) :
    dev.install_device_d8 amod start stop rhandler whandler mask =
      .ok { dev with m_prgspace :=
        (dev.m_prgspace.install_readwrite_handler start stop rhandler whandler
          .D8 (mask &&& (2 ^ dev.m_prgwidth - 1))) } ∧
    dev.install_device_d16 amod start stop rhandler whandler mask =
      .ok { dev with m_prgspace :=
        (dev.m_prgspace.install_readwrite_handler start stop rhandler whandler
          .D16 (mask &&& (2 ^ dev.m_prgwidth - 1))) } ∧
    dev.install_device_d32 amod start stop rhandler whandler mask =
      .ok { dev with m_prgspace :=
        (dev.m_prgspace.install_readwrite_handler start stop rhandler whandler
          .D32 (mask &&& (2 ^ dev.m_prgwidth - 1))) } := by
  have h16 : (mask &&& 65535) % 65536 = mask &&& 65535 :=
    Nat.mod_eq_of_lt (lt_of_le_of_lt Nat.and_le_right (by norm_num))
  have h24 : (mask &&& 16777215) % 4294967296 = mask &&& 16777215 :=
    Nat.mod_eq_of_lt (lt_of_le_of_lt Nat.and_le_right (by norm_num))
  have h32 : mask &&& 4294967295 = mask := by
    simpa using and_mask_of_lt hmask
  rcases hamod with ha | ha | ha <;> subst ha <;>
    rcases hwidth with hw | hw | hw <;>
      refine ⟨?_, ?_, ?_⟩ <;>
        simp [vme_device.install_device_d8, vme_device.install_device_d16,
          vme_device.install_device_d32, hw, h16, h24, h32]

/-- Witness for C1: the spec's scenario width=16, modifier=A16-SC,
mask=0xFFFFFFFF registers mask 0x0000FFFF, for all three overloads. -/
theorem install_device_supported_masks_witness :
    bus16.install_device_d8 .A16_SC 0 255 1 2 0xffffffff =
      .ok { bus16 with m_prgspace :=
        (bus16.m_prgspace.install_readwrite_handler 0 255 1 2
          .D8 (0xffffffff &&& (2 ^ bus16.m_prgwidth - 1))) } ∧
    bus16.install_device_d16 .A16_SC 0 255 1 2 0xffffffff =
      .ok { bus16 with m_prgspace :=
        (bus16.m_prgspace.install_readwrite_handler 0 255 1 2
          .D16 (0xffffffff &&& (2 ^ bus16.m_prgwidth - 1))) } ∧
    bus16.install_device_d32 .A16_SC 0 255 1 2 0xffffffff =
      .ok { bus16 with m_prgspace :=
        (bus16.m_prgspace.install_readwrite_handler 0 255 1 2
          .D32 (0xffffffff &&& (2 ^ bus16.m_prgwidth - 1))) } :=
  install_device_supported_masks bus16 .A16_SC 0 255 1 2 0xffffffff
    (Or.inl rfl) (Or.inl rfl) (by norm_num)

/-- C2: for every unsupported address modifier, each of the three
`install_device` overloads hits `fatalerror` (modelled as `Except.error`, so
no successor state exists and the decoder table is untouched), reporting the
unsupported-modifier error. -/
theorem install_device_bad_amod (dev : vme_device) (amod : vme_amod_t)
    (start stop rhandler whandler mask : Nat)
    (hamod : ¬(amod = .A16_SC ∨ amod = .A24_SC ∨ amod = .A32_SC)) :
    dev.install_device_d8 amod start stop rhandler whandler mask =
      .error (.unsupported_amod .D8 amod) ∧
    dev.install_device_d16 amod start stop rhandler whandler mask =
      .error (.unsupported_amod .D16 amod) ∧
    dev.install_device_d32 amod start stop rhandler whandler mask =
      .error (.unsupported_amod .D32 amod) := by
  refine ⟨?_, ?_, ?_⟩ <;>
    simp [vme_device.install_device_d8, vme_device.install_device_d16,
      vme_device.install_device_d32, hamod]

/-- Witness for C2: an unrecognized modifier on a 16-bit bus is rejected by
all three overloads. -/
theorem install_device_bad_amod_witness :
    bus16.install_device_d8 (.other 0) 0 255 1 2 77 =
      .error (.unsupported_amod .D8 (.other 0)) ∧
    bus16.install_device_d16 (.other 0) 0 255 1 2 77 =
      .error (.unsupported_amod .D16 (.other 0)) ∧
    bus16.install_device_d32 (.other 0) 0 255 1 2 77 =
      .error (.unsupported_amod .D32 (.other 0)) :=
  install_device_bad_amod bus16 (.other 0) 0 255 1 2 77 (by decide)

/-- C3: for every supported address modifier but a resolved bus width outside
{16, 24, 32}, each of the three `install_device` overloads hits `fatalerror`
(modelled as `Except.error`, so the decoder table is untouched), reporting the
unsupported-width error. -/
theorem install_device_bad_width (dev : vme_device) (amod : vme_amod_t)
    (start stop rhandler whandler mask : Nat)
    (hamod : amod = .A16_SC ∨ amod = .A24_SC ∨ amod = .A32_SC)
    (hwidth : ¬(dev.m_prgwidth = 16 ∨ dev.m_prgwidth = 24 ∨
      dev.m_prgwidth = 32)) :
    dev.install_device_d8 amod start stop rhandler whandler mask =
      .error (.unsupported_width .D8 dev.m_prgwidth) ∧
    dev.install_device_d16 amod start stop rhandler whandler mask =
      .error (.unsupported_width .D16 dev.m_prgwidth) ∧
    dev.install_device_d32 amod start stop rhandler whandler mask =
      .error (.unsupported_width .D32 dev.m_prgwidth) := by
  push_neg at hwidth
  obtain ⟨h1, h2, h3⟩ := hwidth
  rcases hamod with ha | ha | ha <;> subst ha <;>
    refine ⟨?_, ?_, ?_⟩ <;>
      simp [vme_device.install_device_d8, vme_device.install_device_d16,
        vme_device.install_device_d32, h1, h2, h3]

/-- Witness for C3: an 8-bit-wide bus rejects an A16_SC installation in all
three overloads. -/
theorem install_device_bad_width_witness :
    bus8.install_device_d8 .A16_SC 0 255 1 2 77 =
      .error (.unsupported_width .D8 bus8.m_prgwidth) ∧
    bus8.install_device_d16 .A16_SC 0 255 1 2 77 =
      .error (.unsupported_width .D16 bus8.m_prgwidth) ∧
    bus8.install_device_d32 .A16_SC 0 255 1 2 77 =
      .error (.unsupported_width .D32 bus8.m_prgwidth) :=
  install_device_bad_width bus8 .A16_SC 0 255 1 2 77 (Or.inl rfl) (by decide)

/-- C4: when the bus is configured to delegate its address space
(`m_allocspaces = false`) and the named external processor cannot be found at
start-up, `device_start` fails fatally (the source dereferences the null
`m_maincpu`, modelled as `Except.error (.missing_cpu _)`). -/
theorem device_start_missing_cpu (dev : vme_device)
    (subdevice : String → Option cpu_device)
    (halloc : dev.m_allocspaces = false)
    (hmiss : subdevice dev.m_cputag = none) :
    dev.device_start subdevice = .error (.missing_cpu dev.m_cputag) := by
  simp [vme_device.device_start, halloc, hmiss]

/-- Witness for C4: a freshly constructed bus switched to delegation, started
in a machine with no subdevices at all, fails with the missing-CPU error for
the default tag "maincpu". -/
theorem device_start_missing_cpu_witness :
    (vme_device.construct 0 ⟨[]⟩).static_use_owner_spaces.device_start
        (fun _ => none) =
      .error (.missing_cpu "maincpu") :=
  device_start_missing_cpu (vme_device.construct 0 ⟨[]⟩).static_use_owner_spaces
    (fun _ => none) rfl rfl

/-- C5: attaching any list of cards to a freshly constructed bus yields a
card list equal to that list (length N, exactly attachment order, no
uniqueness check); more generally folding `add_vme_card` appends in order.
The destructor (`detach_all`) empties the list while every previously
attached card is returned detached, not destroyed. -/
theorem add_vme_card_order_and_teardown (dev : vme_device) (cards : List Nat)
    (junk_prgwidth : Nat) (junk_prgspace : address_space) :
    (cards.foldl vme_device.add_vme_card
        (vme_device.construct junk_prgwidth junk_prgspace)).m_device_list =
      cards ∧
    (cards.foldl vme_device.add_vme_card dev).m_device_list =
      dev.m_device_list ++ cards ∧
    (cards.foldl vme_device.add_vme_card dev).m_device_list.length =
      dev.m_device_list.length + cards.length ∧
    dev.destruct.1.m_device_list = [] ∧
    dev.destruct.2 = dev.m_device_list := by
  refine ⟨?_, foldl_add_vme_card dev cards, ?_, rfl, rfl⟩
  · simpa [vme_device.construct] using
      foldl_add_vme_card (vme_device.construct junk_prgwidth junk_prgspace)
        cards
  · simp [foldl_add_vme_card dev cards]

/-- C6: when a card's `set_vme_device` finds no VME bus under its configured
bus tag, the operation is non-fatal: `m_vme` is (re)set to null, every other
card field is unchanged, and the machine's device registry — hence every
bus's card list — is untouched. -/
theorem set_vme_device_no_bus (card : device_vme_card_interface)
    (card_id : Nat) (machine : List (String × machine_device))
    (hmiss : find_vme_bus machine card.m_vme_tag = none) :
    card.set_vme_device card_id machine =
      ({ card with m_vme := none }, machine) := by
  simp [device_vme_card_interface.set_vme_device, hmiss]

/-- Witness for C6: `card0` is configured for bus "vme", but the machine
holds only a non-VME device under another tag; the card stays unattached and
the registry is unchanged. -/
theorem set_vme_device_no_bus_witness :
    card0.set_vme_device 7 [("sio", .non_vme)] =
      ({ card0 with m_vme := none }, [("sio", .non_vme)]) :=
  set_vme_device_no_bus card0 7 [("sio", .non_vme)] rfl

/-- C7: the slot's byte-wide read returns the neutral default 0 for every
offset and leaves the slot (including any plugged card) unchanged, and the
byte-wide write is a no-op for every offset and value — the forwarding to the
card is not wired up. -/
theorem slot_read8_write8_inert (slot : vme_slot_device) (offset data : Nat) :
    slot.read8 offset = (0, slot) ∧ slot.write8 offset data = slot :=
  ⟨rfl, rfl⟩

/-- C8: the card capability's base `read8` returns zero for every offset and
the base `write8` is a no-op for every offset and value, so a card overriding
neither still satisfies the byte-access entry points. -/
theorem card_read8_write8_inert (card : device_vme_card_interface)
    (offset data : Nat) :
    card.read8 offset = (0, card) ∧ card.write8 offset data = card :=
  ⟨rfl, rfl⟩

/-- C9: in every `install_device` overload the address-modifier check runs
before the width check: with both an unsupported modifier and an unsupported
width, the error raised is the unsupported-modifier one, never the
unsupported-width one. -/
theorem install_device_amod_checked_first (dev : vme_device)
    (amod : vme_amod_t) (start stop rhandler whandler mask : Nat)
    (hamod : ¬(amod = .A16_SC ∨ amod = .A24_SC ∨ amod = .A32_SC))
    (hwidth : ¬(dev.m_prgwidth = 16 ∨ dev.m_prgwidth = 24 ∨
      dev.m_prgwidth = 32)) :
    dev.install_device_d8 amod start stop rhandler whandler mask =
      .error (.unsupported_amod .D8 amod) ∧
    dev.install_device_d16 amod start stop rhandler whandler mask =
      .error (.unsupported_amod .D16 amod) ∧
    dev.install_device_d32 amod start stop rhandler whandler mask =
      .error (.unsupported_amod .D32 amod) := by
  refine ⟨?_, ?_, ?_⟩ <;>
    simp [vme_device.install_device_d8, vme_device.install_device_d16,
      vme_device.install_device_d32, hamod]

/-- Witness for C9: an unrecognized modifier on an 8-bit-wide bus (both
checks would fail) reports the modifier error in all three overloads. -/
theorem install_device_amod_checked_first_witness :
    bus8.install_device_d8 (.other 9) 0 255 1 2 77 =
      .error (.unsupported_amod .D8 (.other 9)) ∧
    bus8.install_device_d16 (.other 9) 0 255 1 2 77 =
      .error (.unsupported_amod .D16 (.other 9)) ∧
    bus8.install_device_d32 (.other 9) 0 255 1 2 77 =
      .error (.unsupported_amod .D32 (.other 9)) :=
  install_device_amod_checked_first bus8 (.other 9) 0 255 1 2 77 (by decide)
    (by decide)

/-- C10: a newly constructed bus owns its own address space
(`m_allocspaces = true`) with the delegation target defaulting to "maincpu"
and an empty card list, and `static_use_owner_spaces` sets exactly
`m_allocspaces := false`, changing no other field. -/
theorem construct_defaults_use_owner_spaces (junk_prgwidth : Nat)
    (junk_prgspace : address_space) (dev : vme_device) :
    (vme_device.construct junk_prgwidth junk_prgspace).m_allocspaces = true ∧
    (vme_device.construct junk_prgwidth junk_prgspace).m_cputag = "maincpu" ∧
    (vme_device.construct junk_prgwidth junk_prgspace).m_device_list = [] ∧
    dev.static_use_owner_spaces = { dev with m_allocspaces := false } :=
  ⟨rfl, rfl, rfl, rfl⟩

end VME
